import Mathlib

/-!
Shallow embedding of `channel.c` (a bounded, closable message channel).
Sequential (single-thread) semantics: `pthread_cond_wait`, which in a
single-thread execution can never be signalled, is modelled as blocking
(the function returns `none`); `pthread_mutex_lock` / `pthread_mutex_unlock`
are modelled as setting / clearing a `locked` flag on the channel state.
Opaque `void*` payloads are modelled as `Nat`.
-/

/-- Modelled from the spec: the external fixed-capacity FIFO buffer
collaborator (`buffer.c` is not under `src/`; the spec gives its contract in
section 6). `items` lists the buffered elements, oldest first; `capacity` is
fixed at construction and never changes. -/
structure Buffer where
  capacity : Nat
  items : List Nat
deriving Repr, DecidableEq

/-- Modelled from the spec: `construct(capacity)` returns an empty buffer
(allocation failure is environmental and not modelled). -/
def buffer_create (size : Nat) : Buffer :=
  { capacity := size, items := [] }

/-- Modelled from the spec: `current_size(buffer)` is the number of buffered
elements. -/
def buffer_current_size (b : Buffer) : Nat :=
  b.items.length

/-- Modelled from the spec: `capacity(buffer)` is the fixed capacity. -/
def buffer_capacity (b : Buffer) : Nat :=
  b.capacity

/-- Modelled from the spec: `add(buffer, item)` enqueues at the back
(precondition in the spec: current_size < capacity). -/
def buffer_add (b : Buffer) (data : Nat) : Buffer :=
  { capacity := b.capacity, items := b.items ++ [data] }

/-- Modelled from the spec: `remove(buffer, outItem)` dequeues the oldest
element first (precondition in the spec: current_size > 0). Returns the
shrunk buffer and the removed element. -/
def buffer_remove (b : Buffer) : Buffer × Nat :=
  ({ capacity := b.capacity, items := b.items.tail }, b.items.headD 0)

/-- The channel state of `channel.h`/`channel.c`: the owned buffer, the
`closed` flag, and the mutex modelled as a `locked` flag (the two condition
variables have no sequential state). -/
structure Channel where
  buffer : Buffer
  closed : Bool
  locked : Bool
deriving Repr, DecidableEq

/-- The `enum channel_status` codes of `channel.h`. -/
inductive channel_status where
  | SUCCESS
  | CLOSED_ERROR
  | GENERIC_ERROR
  | CHANNEL_FULL
  | CHANNEL_EMPTY
  | DESTROY_ERROR
deriving Repr, DecidableEq

/-- `channel_create`: fresh channel with an empty buffer of the given size,
open, mutex initialised unlocked (malloc failure is environmental and not
modelled). -/
def channel_create (size : Nat) : Channel :=
  { buffer := buffer_create size, closed := false, locked := false }

/-- `channel_send` (blocking): lock; while the buffer is full, return
`CLOSED_ERROR` (after unlocking) if the channel is closed, else wait on
`not_full` — in the sequential model the wait never returns, i.e. `none`;
once not full, add the data, signal `not_empty`, unlock, return `SUCCESS`.
Note the source checks `closed` only inside the while-full loop. -/
def channel_send (channel : Channel) (data : Nat) : Option (channel_status × Channel) :=
  let ch := { channel with locked := true }
  if buffer_current_size ch.buffer = buffer_capacity ch.buffer then
    if ch.closed then
      some (channel_status.CLOSED_ERROR, { ch with locked := false })
    else
      none
  else
    some (channel_status.SUCCESS,
      { ch with buffer := buffer_add ch.buffer data, locked := false })

/-- `channel_receive` (blocking): lock; while the buffer is empty, return
`CLOSED_ERROR` (after unlocking) if the channel is closed, else wait on
`not_empty` (`none` in the sequential model); once non-empty, remove the
oldest item into the output slot, signal `not_full`, unlock, return
`SUCCESS`. -/
def channel_receive (channel : Channel) : Option (channel_status × Channel × Option Nat) :=
  let ch := { channel with locked := true }
  if buffer_current_size ch.buffer = 0 then
    if ch.closed then
      some (channel_status.CLOSED_ERROR, { ch with locked := false }, none)
    else
      none
  else
    some (channel_status.SUCCESS,
      { ch with buffer := (buffer_remove ch.buffer).1, locked := false },
      some (buffer_remove ch.buffer).2)

/-- `channel_non_blocking_send`: lock; if closed, unlock and return
`CLOSED_ERROR`; if full, unlock and return `CHANNEL_FULL`; else add the data,
signal `not_empty`, unlock, return `SUCCESS`. -/
def channel_non_blocking_send (channel : Channel) (data : Nat) : channel_status × Channel :=
  let ch := { channel with locked := true }
  if ch.closed then
    (channel_status.CLOSED_ERROR, { ch with locked := false })
  else if buffer_current_size ch.buffer = buffer_capacity ch.buffer then
    (channel_status.CHANNEL_FULL, { ch with locked := false })
  else
    (channel_status.SUCCESS,
      { ch with buffer := buffer_add ch.buffer data, locked := false })

/-- `channel_non_blocking_receive`: lock; if closed, unlock and return
`CLOSED_ERROR`; if empty, unlock and return `CHANNEL_EMPTY`; else remove the
oldest item into the output slot, signal `not_full`, unlock, return
`SUCCESS`. -/
def channel_non_blocking_receive (channel : Channel) : channel_status × Channel × Option Nat :=
  let ch := { channel with locked := true }
  if ch.closed then
    (channel_status.CLOSED_ERROR, { ch with locked := false }, none)
  else if buffer_current_size ch.buffer = 0 then
    (channel_status.CHANNEL_EMPTY, { ch with locked := false }, none)
  else
    (channel_status.SUCCESS,
      { ch with buffer := (buffer_remove ch.buffer).1, locked := false },
      some (buffer_remove ch.buffer).2)

/-- `channel_close`: lock; if already closed, unlock and return
`CLOSED_ERROR`; else set `closed := true`, broadcast both condition
variables (no sequential state), unlock, return `SUCCESS`. -/
def channel_close (channel : Channel) : channel_status × Channel :=
  let ch := { channel with locked := true }
  if ch.closed then
    (channel_status.CLOSED_ERROR, { ch with locked := false })
  else
    (channel_status.SUCCESS, { ch with closed := true, locked := false })

/-- `channel_destroy`: if the channel is not closed, return `DESTROY_ERROR`
touching nothing (the source does not even take the lock here); if closed,
free the buffer, the mutex, both condition variables and the channel itself
(`none` models the freed channel) and return `SUCCESS`. -/
def channel_destroy (channel : Channel) : channel_status × Option Channel :=
  if !channel.closed then
    (channel_status.DESTROY_ERROR, some channel)
  else
    (channel_status.SUCCESS, none)

/-- The direction field of `select_t` in `channel.h`. -/
inductive select_dir where
  | SEND
  | RECEIVE
deriving Repr, DecidableEq

/-- One entry of a select request list: a channel, the desired direction and
the payload slot. -/
structure select_t where
  channel : Channel
  dir : select_dir
  data : Nat
deriving Repr, DecidableEq

/-- `channel_select` as written in the source: the bonus function is an
unimplemented stub whose body is just a return of `SUCCESS` — it reads and
writes nothing. The list stands for `channel_list` (its length is
`channel_count`) and the `Nat` argument and result model the in/out
`*selected_index`; the returned list is the (unchanged) state of the
entries. -/
def channel_select (channel_list : List select_t) (selected_index : Nat) :
    channel_status × List select_t × Nat :=
  (channel_status.SUCCESS, channel_list, selected_index)

/-- Whether one select entry's non-blocking operation on its channel would
return `SUCCESS` (used to state the select claims). -/
def select_entry_ready (e : select_t) : Bool :=
  match e.dir with
  | select_dir.SEND => (channel_non_blocking_send e.channel e.data).1 = channel_status.SUCCESS
  | select_dir.RECEIVE => (channel_non_blocking_receive e.channel).1 = channel_status.SUCCESS

/-- Iterated blocking send: sends each item of the list in order, requiring
`SUCCESS` at every step; `none` if any send blocks or fails. -/
def sendAll (ch : Channel) (items : List Nat) : Option Channel :=
  match items with
  | [] => some ch
  | d :: rest =>
    match channel_send ch d with
    | some (channel_status.SUCCESS, ch') => sendAll ch' rest
    | _ => none

/-- Iterated blocking receive: performs n receives, requiring `SUCCESS` and
a produced item at every step; returns the items in the order received. -/
def receiveAll (ch : Channel) (n : Nat) : Option (Channel × List Nat) :=
  match n with
  | 0 => some (ch, [])
  | Nat.succ m =>
    match channel_receive ch with
    | some (channel_status.SUCCESS, ch', some d) =>
      match receiveAll ch' m with
      | some (ch2, ds) => some (ch2, d :: ds)
      | none => none
    | _ => none

/-- Claim C1 (failing input): on a closed channel of capacity 1 with an empty
buffer (free space available), the blocking `channel_send` of item 7 returns
`SUCCESS` and enqueues 7 — not `CLOSED_ERROR` with nothing enqueued as the
claim (and the source's own comments) require, because the source checks the
closed flag only inside the while-full loop. -/
theorem channel_send_closed_free_space_enqueues :
    channel_send { buffer := ⟨1, []⟩, closed := true, locked := false } 7 =
      some (channel_status.SUCCESS, { buffer := ⟨1, [7]⟩, closed := true, locked := false }) := by
  decide

/-- Claim C2 (failing input): for the list whose entry 0 is a receive on an
empty open channel and whose entry 1 is a receive on an open channel holding
item 5 (so entry 1's non-blocking receive would return `SUCCESS`),
`channel_select` returns `SUCCESS` but leaves every entry's channel (item 5
is still buffered) and the selected index (still 99) unchanged — the stub
performs no operation and never writes the index, contrary to the claim. -/
theorem channel_select_ignores_first_ready_entry :
    select_entry_ready ⟨{ buffer := ⟨1, [5]⟩, closed := false, locked := false },
        select_dir.RECEIVE, 0⟩ = true ∧
    channel_select
        [⟨{ buffer := ⟨1, []⟩, closed := false, locked := false }, select_dir.RECEIVE, 0⟩,
         ⟨{ buffer := ⟨1, [5]⟩, closed := false, locked := false }, select_dir.RECEIVE, 0⟩] 99 =
      (channel_status.SUCCESS,
        [⟨{ buffer := ⟨1, []⟩, closed := false, locked := false }, select_dir.RECEIVE, 0⟩,
         ⟨{ buffer := ⟨1, [5]⟩, closed := false, locked := false }, select_dir.RECEIVE, 0⟩], 99) := by
  constructor
  · decide
  · rfl

/-- Claim C3: on a closed channel, blocking `channel_receive` returns
`SUCCESS` and dequeues the oldest buffered item into the output slot when
the buffer is non-empty, and returns `CLOSED_ERROR` with no item produced
only when the buffer is empty. -/
theorem channel_receive_closed_drains (ch : Channel) (hc : ch.closed = true) :
    (ch.buffer.items ≠ [] →
      channel_receive ch =
        some (channel_status.SUCCESS,
          { ch with buffer := ⟨ch.buffer.capacity, ch.buffer.items.tail⟩, locked := false },
          some (ch.buffer.items.headD 0))) ∧
    (ch.buffer.items = [] →
      channel_receive ch = some (channel_status.CLOSED_ERROR, { ch with locked := false }, none)) := by
  obtain ⟨⟨cap, l⟩, c, lk⟩ := ch
  cases l with
  | nil =>
    refine ⟨fun h => absurd rfl h, fun _ => ?_⟩
    simp_all [channel_receive, buffer_current_size]
  | cons d t =>
    refine ⟨fun _ => ?_, fun h => by simp_all⟩
    simp_all [channel_receive, buffer_current_size, buffer_remove]

/-- Witness for C3 at a concrete input: a closed channel buffering [3, 4]
yields `SUCCESS` with item 3 (the oldest), leaving [4] buffered. -/
theorem channel_receive_closed_drains_witness :
    channel_receive { buffer := ⟨2, [3, 4]⟩, closed := true, locked := false } =
      some (channel_status.SUCCESS, { buffer := ⟨2, [4]⟩, closed := true, locked := false },
        some 3) := by
  have h := (channel_receive_closed_drains
    { buffer := ⟨2, [3, 4]⟩, closed := true, locked := false } rfl).1 (by decide)
  simpa using h

/-- Claim C5: closing an open channel sets the closed flag and returns
`SUCCESS`; closing an already-closed channel returns `CLOSED_ERROR` and
changes nothing; in both cases the buffer contents are unchanged by close. -/
theorem channel_close_idempotent (ch : Channel) :
    (ch.closed = false →
      channel_close ch = (channel_status.SUCCESS, { ch with closed := true, locked := false })) ∧
    (ch.closed = true →
      channel_close ch = (channel_status.CLOSED_ERROR, { ch with locked := false })) ∧
    (channel_close ch).2.buffer = ch.buffer := by
  obtain ⟨b, c, lk⟩ := ch
  cases c <;> simp [channel_close]

/-- Witness for C5 at a concrete input: closing the fresh open channel of
capacity 2 returns `SUCCESS` with the closed flag set, and closing the
result returns `CLOSED_ERROR` with the state unchanged. -/
theorem channel_close_idempotent_witness :
    channel_close (channel_create 2) =
      (channel_status.SUCCESS, { buffer := ⟨2, []⟩, closed := true, locked := false }) ∧
    channel_close { buffer := ⟨2, []⟩, closed := true, locked := false } =
      (channel_status.CLOSED_ERROR, { buffer := ⟨2, []⟩, closed := true, locked := false }) := by
  constructor
  · have h := (channel_close_idempotent (channel_create 2)).1 rfl
    simpa using h
  · have h := (channel_close_idempotent
      { buffer := ⟨2, []⟩, closed := true, locked := false }).2.1 rfl
    simpa using h

/-- Claim C6: destroying an open channel returns `DESTROY_ERROR` and frees
nothing, leaving the channel state exactly as it was; destroying a closed
channel releases everything and returns `SUCCESS`. -/
theorem channel_destroy_requires_closed (ch : Channel) :
    (ch.closed = false → channel_destroy ch = (channel_status.DESTROY_ERROR, some ch)) ∧
    (ch.closed = true → channel_destroy ch = (channel_status.SUCCESS, none)) := by
  obtain ⟨b, c, lk⟩ := ch
  cases c <;> simp [channel_destroy]

/-- Witness for C6 at a concrete input: destroying the fresh open channel of
capacity 1 returns `DESTROY_ERROR` with the channel intact; destroying a
closed channel returns `SUCCESS` with everything freed. -/
theorem channel_destroy_requires_closed_witness :
    channel_destroy (channel_create 1) = (channel_status.DESTROY_ERROR, some (channel_create 1)) ∧
    channel_destroy { buffer := ⟨1, []⟩, closed := true, locked := false } =
      (channel_status.SUCCESS, none) := by
  exact ⟨(channel_destroy_requires_closed (channel_create 1)).1 rfl,
    (channel_destroy_requires_closed { buffer := ⟨1, []⟩, closed := true, locked := false }).2 rfl⟩

/-- Claim C9 (counterexample): on a closed channel whose buffer is full,
`channel_send` returns `CLOSED_ERROR` with the lock released (`locked`
is false on return), and symmetrically for `channel_receive` on a closed
empty channel — refuting the claim that these paths return with the lock
still acquired. -/
theorem closed_error_lock_released_cex :
    (channel_send { buffer := ⟨1, [2]⟩, closed := true, locked := false } 9).map
        (fun r => (r.1, r.2.locked)) = some (channel_status.CLOSED_ERROR, false) ∧
    (channel_receive { buffer := ⟨1, []⟩, closed := true, locked := false }).map
        (fun r => (r.1, r.2.1.locked)) = some (channel_status.CLOSED_ERROR, false) := by
  decide

/-- Claim C9 (amended): on every `CLOSED_ERROR` return path of
`channel_send` and `channel_receive`, the function releases the lock before
returning (the returned channel is unlocked). -/
theorem closed_error_releases_lock (ch : Channel) (data : Nat) :
    (∀ ch', channel_send ch data = some (channel_status.CLOSED_ERROR, ch') →
      ch'.locked = false) ∧
    (∀ ch' d, channel_receive ch = some (channel_status.CLOSED_ERROR, ch', d) →
      ch'.locked = false) := by
  constructor
  · intro ch' h
    simp only [channel_send] at h
    split at h
    · split at h
      · simp only [Option.some.injEq, Prod.mk.injEq, true_and] at h
        rw [← h]
      · exact Option.noConfusion h
    · simp only [Option.some.injEq, Prod.mk.injEq] at h
      exact absurd h.1 (by decide)
  · intro ch' d h
    simp only [channel_receive] at h
    split at h
    · split at h
      · simp only [Option.some.injEq, Prod.mk.injEq, true_and] at h
        rw [← h.1]
      · exact Option.noConfusion h
    · simp only [Option.some.injEq, Prod.mk.injEq] at h
      exact absurd h.1 (by decide)

/-- Witness for the amended C9 at a concrete input: the `CLOSED_ERROR`
return of `channel_send` on a closed full channel carries an unlocked
channel. -/
theorem closed_error_releases_lock_witness :
    ∃ ch', channel_send { buffer := ⟨1, [2]⟩, closed := true, locked := false } 9 =
        some (channel_status.CLOSED_ERROR, ch') ∧ ch'.locked = false := by
  refine ⟨{ buffer := ⟨1, [2]⟩, closed := true, locked := false }, by decide, ?_⟩
  exact (closed_error_releases_lock
    { buffer := ⟨1, [2]⟩, closed := true, locked := false } 9).1 _ (by decide)

/-- Claim C10: `channel_select` (the stub in the source) returns `SUCCESS`,
never writes the selected index, and leaves every listed channel — buffer
contents and closed flag — unchanged. -/
theorem channel_select_is_noop (channel_list : List select_t) (selected_index : Nat) :
    channel_select channel_list selected_index =
      (channel_status.SUCCESS, channel_list, selected_index) := by
  rfl

/-- Claim C4: the non-blocking operations check the closed flag before the
capacity condition — closed gives `CLOSED_ERROR` regardless of buffer
contents; otherwise full/empty give `CHANNEL_FULL`/`CHANNEL_EMPTY` without
side effects; otherwise the operation is performed with `SUCCESS`. -/
theorem non_blocking_closed_before_capacity (ch : Channel) (data : Nat) :
    (ch.closed = true →
      channel_non_blocking_send ch data =
        (channel_status.CLOSED_ERROR, { ch with locked := false }) ∧
      channel_non_blocking_receive ch =
        (channel_status.CLOSED_ERROR, { ch with locked := false }, none)) ∧
    (ch.closed = false → buffer_current_size ch.buffer = buffer_capacity ch.buffer →
      channel_non_blocking_send ch data =
        (channel_status.CHANNEL_FULL, { ch with locked := false })) ∧
    (ch.closed = false → buffer_current_size ch.buffer = 0 →
      channel_non_blocking_receive ch =
        (channel_status.CHANNEL_EMPTY, { ch with locked := false }, none)) ∧
    (ch.closed = false → buffer_current_size ch.buffer ≠ buffer_capacity ch.buffer →
      channel_non_blocking_send ch data =
        (channel_status.SUCCESS,
          { ch with buffer := buffer_add ch.buffer data, locked := false })) ∧
    (ch.closed = false → buffer_current_size ch.buffer ≠ 0 →
      channel_non_blocking_receive ch =
        (channel_status.SUCCESS,
          { ch with buffer := (buffer_remove ch.buffer).1, locked := false },
          some (buffer_remove ch.buffer).2)) := by
  obtain ⟨⟨cap, l⟩, c, lk⟩ := ch
  cases c <;>
    refine ⟨fun hc => ?_, fun hc hf => ?_, fun hc he => ?_, fun hc hf => ?_, fun hc he => ?_⟩ <;>
      simp_all [channel_non_blocking_send, channel_non_blocking_receive,
        buffer_current_size, buffer_capacity]

/-- Witness for C4 at a concrete input: a channel that is both closed and
full (capacity 1 holding item 9) reports `CLOSED_ERROR` — not
`CHANNEL_FULL`/`CHANNEL_EMPTY` — on both non-blocking operations, with the
buffer untouched. -/
theorem non_blocking_closed_before_capacity_witness :
    channel_non_blocking_send { buffer := ⟨1, [9]⟩, closed := true, locked := false } 5 =
      (channel_status.CLOSED_ERROR, { buffer := ⟨1, [9]⟩, closed := true, locked := false }) ∧
    channel_non_blocking_receive { buffer := ⟨1, [9]⟩, closed := true, locked := false } =
      (channel_status.CLOSED_ERROR,
        { buffer := ⟨1, [9]⟩, closed := true, locked := false }, none) := by
  have h := (non_blocking_closed_before_capacity
    { buffer := ⟨1, [9]⟩, closed := true, locked := false } 5).1 rfl
  simpa using h

/-- Claim C7: every failing (non-`SUCCESS`) return path of the public
operations — blocking and non-blocking send/receive, close, destroy —
leaves the buffer contents exactly as they were before the call. -/
theorem failing_paths_preserve_buffer (ch : Channel) (data : Nat) :
    (∀ s ch', channel_send ch data = some (s, ch') → s ≠ channel_status.SUCCESS →
      ch'.buffer = ch.buffer) ∧
    (∀ s ch' d, channel_receive ch = some (s, ch', d) → s ≠ channel_status.SUCCESS →
      ch'.buffer = ch.buffer) ∧
    ((channel_non_blocking_send ch data).1 ≠ channel_status.SUCCESS →
      (channel_non_blocking_send ch data).2.buffer = ch.buffer) ∧
    ((channel_non_blocking_receive ch).1 ≠ channel_status.SUCCESS →
      (channel_non_blocking_receive ch).2.1.buffer = ch.buffer) ∧
    ((channel_close ch).1 ≠ channel_status.SUCCESS →
      (channel_close ch).2.buffer = ch.buffer) ∧
    (∀ s ch', channel_destroy ch = (s, some ch') → s ≠ channel_status.SUCCESS →
      ch'.buffer = ch.buffer) := by
  obtain ⟨⟨cap, l⟩, c, lk⟩ := ch
  refine ⟨?_, ?_, ?_, ?_, ?_, ?_⟩
  · intro s ch' h hs
    simp only [channel_send] at h
    split at h
    · split at h
      · simp only [Option.some.injEq, Prod.mk.injEq] at h
        rw [← h.2]
      · exact Option.noConfusion h
    · simp only [Option.some.injEq, Prod.mk.injEq] at h
      exact absurd h.1.symm hs
  · intro s ch' d h hs
    simp only [channel_receive] at h
    split at h
    · split at h
      · simp only [Option.some.injEq, Prod.mk.injEq] at h
        rw [← h.2.1]
      · exact Option.noConfusion h
    · simp only [Option.some.injEq, Prod.mk.injEq] at h
      exact absurd h.1.symm hs
  · intro hs
    cases c
    · by_cases hf : l.length = cap
      · simp [channel_non_blocking_send, buffer_current_size, buffer_capacity, hf]
      · exact absurd
          (by simp [channel_non_blocking_send, buffer_current_size, buffer_capacity, hf]) hs
    · simp [channel_non_blocking_send]
  · intro hs
    cases c
    · by_cases he : l.length = 0
      · simp [channel_non_blocking_receive, buffer_current_size, he]
      · exact absurd (by simp [channel_non_blocking_receive, buffer_current_size, he]) hs
    · simp [channel_non_blocking_receive]
  · intro hs
    cases c <;> simp [channel_close]
  · intro s ch' h hs
    cases c
    · simp only [channel_destroy, Bool.not_false, if_pos, Prod.mk.injEq,
        Option.some.injEq] at h
      rw [← h.2]
    · simp [channel_destroy] at h

/-- Witness for C7 at concrete inputs: on a closed channel holding [4] at
capacity 1, the failing blocking send (full and closed) and the failing
non-blocking send both leave the buffer holding exactly [4]. -/
theorem failing_paths_preserve_buffer_witness :
    (∀ s ch', channel_send { buffer := ⟨1, [4]⟩, closed := true, locked := false } 8 =
      some (s, ch') → s ≠ channel_status.SUCCESS →
      ch'.buffer = ({ buffer := ⟨1, [4]⟩, closed := true, locked := false } : Channel).buffer) ∧
    ((channel_non_blocking_send { buffer := ⟨1, [4]⟩, closed := true, locked := false } 8).2.buffer =
      ({ buffer := ⟨1, [4]⟩, closed := true, locked := false } : Channel).buffer) := by
  have h := failing_paths_preserve_buffer
    { buffer := ⟨1, [4]⟩, closed := true, locked := false } 8
  exact ⟨h.1, h.2.2.1 (by decide)⟩

/-- Helper: a blocking send on an open channel with spare capacity succeeds,
appending the item at the back of the buffer and leaving the channel open
and unlocked. -/
theorem channel_send_open_spare (cap : Nat) (l : List Nat) (lk : Bool) (d : Nat)
    (h : l.length < cap) :
    channel_send ⟨⟨cap, l⟩, false, lk⟩ d =
      some (channel_status.SUCCESS, ⟨⟨cap, l ++ [d]⟩, false, false⟩) := by
  simp [channel_send, buffer_current_size, buffer_capacity, buffer_add, Nat.ne_of_lt h]

/-- Helper: iterated blocking sends of a whole list on an open channel with
enough spare capacity succeed and append the list at the back of the
buffer. -/
theorem sendAll_open_spare (items : List Nat) : ∀ (cap : Nat) (l : List Nat),
    l.length + items.length ≤ cap →
    sendAll ⟨⟨cap, l⟩, false, false⟩ items = some ⟨⟨cap, l ++ items⟩, false, false⟩ := by
  induction items with
  | nil =>
    intro cap l h
    simp [sendAll]
  | cons d rest ih =>
    intro cap l h
    simp only [List.length_cons] at h
    have hlt : l.length < cap := by omega
    simp only [sendAll, channel_send_open_spare cap l false d hlt]
    have h2 : (l ++ [d]).length + rest.length ≤ cap := by
      simp only [List.length_append, List.length_cons, List.length_nil]
      omega
    rw [ih cap (l ++ [d]) h2]
    simp

/-- Helper: iterated blocking receives, as many as there are buffered items,
drain the buffer and return the items oldest first, whatever the closed
flag. -/
theorem receiveAll_drains (l : List Nat) : ∀ (cap : Nat) (c : Bool),
    receiveAll ⟨⟨cap, l⟩, c, false⟩ l.length = some (⟨⟨cap, []⟩, c, false⟩, l) := by
  induction l with
  | nil =>
    intro cap c
    simp [receiveAll]
  | cons d t ih =>
    intro cap c
    have hr : channel_receive ⟨⟨cap, d :: t⟩, c, false⟩ =
        some (channel_status.SUCCESS, ⟨⟨cap, t⟩, c, false⟩, some d) := by
      simp [channel_receive, buffer_current_size, buffer_remove]
    simp only [List.length_cons, receiveAll, hr]
    rw [ih cap c]

/-- Claim C8: on an open, empty, unlocked channel, sending any list of
distinct items that fits in the capacity and then receiving the same number
of times succeeds and yields exactly the sent items in send order (FIFO
delivery within one channel). -/
theorem channel_fifo (ch : Channel) (items : List Nat) (_hnd : items.Nodup)
    (hopen : ch.closed = false) (hempty : ch.buffer.items = [])
    (hlk : ch.locked = false) (hcap : items.length ≤ ch.buffer.capacity) :
    ∃ ch', sendAll ch items = some ch' ∧
      ∃ ch'', receiveAll ch' items.length = some (ch'', items) := by
  obtain ⟨⟨cap, l⟩, c, lk⟩ := ch
  dsimp only at hopen hempty hlk hcap
  subst hopen hempty hlk
  refine ⟨⟨⟨cap, items⟩, false, false⟩, ?_, ⟨⟨cap, []⟩, false, false⟩, ?_⟩
  · have h := sendAll_open_spare items cap [] (by simpa using hcap)
    simpa using h
  · exact receiveAll_drains items cap false

/-- Witness for C8 at a concrete input: sending [1, 2, 3] on a fresh open
channel of capacity 3 and then receiving three times yields [1, 2, 3] in
order. -/
theorem channel_fifo_witness :
    ∃ ch', sendAll (channel_create 3) [1, 2, 3] = some ch' ∧
      ∃ ch'', receiveAll ch' 3 = some (ch'', [1, 2, 3]) :=
  channel_fifo (channel_create 3) [1, 2, 3] (by decide) rfl rfl rfl (by decide)
